import Mathlib

/-!
Verification development for the pdldb repository (a thin management layer
over Delta-Lake style table storage). The Python sources embedded here are
src/pdldb/base_table_manager.py and src/pdldb/lake_manager.py. Stateful
methods become explicit state-passing functions; the external storage engine
(deltalake) and dataframe library (polars) are opaque collaborators, so each
operation records the list of engine calls it issues and engine-reported
conditions ("table not found", current version, ...) are passed in as
parameters. Python exceptions become an error type returned via Except.
-/

/-! Python string primitives. The Python source uses str.split(","),
str.strip(), "," in s, and ",".join(xs). These are embedded as structurally
recursive functions on the character list underlying a String, with Python's
semantics (e.g. "".split(",") = [""], and a single-character containment
test for the "in" operator). -/

/-- Auxiliary for pySplit: splits a character list at every occurrence of
the separator character, Python-style (always at least one piece). -/
def splitCharAux (sep : Char) : List Char → List Char → List (List Char)
  | [], acc => [acc.reverse]
  | c :: rest, acc =>
    if c = sep then acc.reverse :: splitCharAux sep rest []
    else splitCharAux sep rest (c :: acc)

/-- Python str.split with a one-character separator: "a,b".split(",") is
["a", "b"], "".split(",") is [""]. -/
def pySplit (s : String) (sep : Char) : List String :=
  (splitCharAux sep s.data []).map (fun cs => String.mk cs)

/-- Python str.strip(): removes leading and trailing whitespace. -/
def pyStrip (s : String) : String :=
  String.mk (((s.data.dropWhile Char.isWhitespace).reverse.dropWhile
    Char.isWhitespace).reverse)

/-- Python "c in s" for a one-character needle: character containment. -/
def pyContains (s : String) (c : Char) : Bool :=
  s.data.any (fun d => d = c)

/-- Python sep.join(xs). -/
def pyJoin (sep : String) : List String → String
  | [] => ""
  | [x] => x
  | x :: y :: xs => x ++ sep ++ pyJoin sep (y :: xs)

/-! Python dict with string keys: an insertion-ordered association list with
unique keys. Assignment d[k] = v replaces in place when k is present and
appends otherwise; "k in d" is key membership; del removes the entry. -/

/-- Python d[k] as an Option (none models a KeyError situation). -/
def dictLookup {α : Type} : List (String × α) → String → Option α
  | [], _ => none
  | (k', v) :: rest, k => if k' = k then some v else dictLookup rest k

/-- Python "k in d". -/
def dictContains {α : Type} (l : List (String × α)) (k : String) : Bool :=
  (dictLookup l k).isSome

/-- Python d[k] = v (replace in place, else append at the end). -/
def dictInsert {α : Type} : List (String × α) → String → α → List (String × α)
  | [], k, v => [(k, v)]
  | (k', v') :: rest, k, v =>
    if k' = k then (k, v) :: rest else (k', v') :: dictInsert rest k v

/-- Python del d[k] (removes the entry when present). -/
def dictRemove {α : Type} : List (String × α) → String → List (String × α)
  | [], _ => []
  | (k', v') :: rest, k =>
    if k' = k then rest else (k', v') :: dictRemove rest k

/-! Data model: dataframes, table definitions, engine calls, errors. -/

/-- A polars DataFrame, abstracted to its schema (ordered column name to
data-type-name mapping) and an opaque row payload. -/
structure DataFrame where
  df_schema : List (String × String)
  rows : List (List String)
deriving DecidableEq, Repr

/-- A polars LazyFrame, as produced by DataFrame.lazy() or pl.scan_delta. -/
structure LazyFrame where
  frame : DataFrame
deriving DecidableEq, Repr

/-- polars DataFrame.lazy(). -/
def DataFrame.lazy (df : DataFrame) : LazyFrame := ⟨df⟩

/-- BaseTable from base_table_validator.py: a table definition with name,
declared schema, and the comma-joined primary-key string. -/
structure BaseTable where
  name : String
  table_schema : List (String × String)
  primary_keys : String
deriving DecidableEq, Repr

/-- Modelled from the spec: BaseTable.validate_schema lives in
src/pdldb/base_table_validator.py, which is not under src/ here. Spec 4.2:
the validator returns true iff the batch's column set and per-column
declared types exactly match the definition's schema, order-independent for
columns, with exact type match. Order-independent exact matching of a
duplicate-free column-to-type mapping is permutation equality. -/
def BaseTable.validate_schema (t : BaseTable) (df : DataFrame) : Bool :=
  df.df_schema.isPerm t.table_schema

/-- Options passed to deltalake's merge builder (built at
base_table_manager.py lines 82-86). -/
structure MergeOptions where
  predicate : String
  source_alias : String
  target_alias : String
deriving DecidableEq, Repr

/-- The match / no-match clauses chained onto deltalake's TableMerger. -/
inductive MergeClause
  | whenMatchedUpdateAll
  | whenNotMatchedInsertAll
  | whenMatchedDelete
  | whenNotMatchedBySourceDelete
deriving DecidableEq, Repr

/-- One call delegated to the external engine (a write, a merge execution,
or a maintenance routine). Write options are a Python dict of option name to
value; the only value this layer ever sets is the "description" entry. -/
inductive EngineCall
  | writeAppend (path : String) (df : DataFrame) (options : List (String × String))
  | writeOverwrite (path : String) (df : DataFrame) (options : List (String × String))
  | mergeExecute (path : String) (df : DataFrame) (options : MergeOptions)
      (clauses : List MergeClause)
  | optimizeCompact (path : String) (target_size : Option Nat)
      (max_concurrent_tasks : Option Nat) (writer_properties : Option String)
  | vacuum (path : String) (retention_hours : Option Nat)
      (enforce_retention_duration : Bool)
  | deleteStorage (path : String)
deriving DecidableEq, Repr

/-- The "description" write option carried by an engine call, when any. -/
def EngineCall.descriptionOption : EngineCall → Option String
  | .writeAppend _ _ options => dictLookup options "description"
  | .writeOverwrite _ _ options => dictLookup options "description"
  | _ => none

/-- Python exceptions raised by this layer or propagated from collaborators:
KeyError from self.tables[name], ValueError raised explicitly, pydantic
ValidationError from the request models, RuntimeError from the generic merge
wrapper, and deltalake's TableNotFoundError when it escapes uncaught. -/
inductive PyError
  | keyError (key : String)
  | valueError (msg : String)
  | validationError (msg : String)
  | runtimeError (msg : String)
  | tableNotFoundError (table : String)
deriving DecidableEq, Repr

/-- State of a BaseTableManager: the storage root and the in-memory catalog
self.tables (a Python dict of table name to BaseTable). -/
structure BaseTableManager where
  base_path : String
  tables : List (String × BaseTable)
deriving DecidableEq, Repr

deriving instance DecidableEq for Except

/-- Result of one operation on state σ: the state afterwards, the engine
calls issued (in order), and the Python return value or exception. -/
structure OpResult (σ : Type) (α : Type) where
  mgr : σ
  calls : List EngineCall
  result : Except PyError α
deriving DecidableEq, Repr

/-- str(self.base_path / table_name). -/
def tablePath (m : BaseTableManager) (table_name : String) : String :=
  m.base_path ++ "/" ++ table_name

/-! BaseTableManager operations (base_table_manager.py). Each method takes
the manager state plus the engine-reported conditions it depends on, and
returns an OpResult. -/

/-- BaseTableManager.create_table (lines 26-36): joins a primary-key list
with commas, builds a BaseTable and assigns it into self.tables. The Python
Union[str, list[str]] argument is a sum type. -/
def BaseTableManager.create_table (m : BaseTableManager) (table_name : String)
    (table_schema : List (String × String))
    (primary_keys : Sum String (List String)) : BaseTableManager :=
  let pk : String :=
    match primary_keys with
    | .inl s => s
    | .inr l => pyJoin "," l
  { m with tables := dictInsert m.tables table_name ⟨table_name, table_schema, pk⟩ }

/-- BaseTableManager.append (lines 38-56): KeyError on an undeclared name,
ValueError on schema mismatch, otherwise one engine append call carrying the
primary-key string as the "description" write option. -/
def BaseTableManager.append (m : BaseTableManager) (table_name : String)
    (df : DataFrame) (delta_write_options : Option (List (String × String))) :
    OpResult BaseTableManager Unit :=
  match dictLookup m.tables table_name with
  | none => ⟨m, [], .error (.keyError table_name)⟩
  | some base_table =>
    if base_table.validate_schema df then
      let dwo := dictInsert (delta_write_options.getD []) "description"
        base_table.primary_keys
      ⟨m, [.writeAppend (tablePath m table_name) df dwo], .ok ()⟩
    else
      ⟨m, [], .error (.valueError "DataFrame does not match table schema")⟩

/-- The merge predicate built at base_table_manager.py lines 75-80: split a
comma-joined composite key, strip each column, AND-join per-column source =
target equalities; a single key yields a single equality clause. -/
def mergePredicate (primary_keys : String) : String :=
  if pyContains primary_keys ',' then
    let pk_columns := (pySplit primary_keys ',').map pyStrip
    let predicate_conditions :=
      pk_columns.map (fun col => "s." ++ col ++ " = t." ++ col)
    pyJoin " AND " predicate_conditions
  else
    "s." ++ primary_keys ++ " = t." ++ primary_keys

/-- The clause chain executed for each merge_condition value at
base_table_manager.py lines 96-109; none of the five independent if
statements fires for an unrecognized value, so the merger is never
executed. -/
def mergeClauses (merge_condition : String) : Option (List MergeClause) :=
  if merge_condition = "update" then some [.whenMatchedUpdateAll]
  else if merge_condition = "insert" then some [.whenNotMatchedInsertAll]
  else if merge_condition = "delete" then some [.whenMatchedDelete]
  else if merge_condition = "upsert" then
    some [.whenMatchedUpdateAll, .whenNotMatchedInsertAll]
  else if merge_condition = "upsert_delete" then
    some [.whenMatchedUpdateAll, .whenNotMatchedInsertAll,
      .whenNotMatchedBySourceDelete]
  else none

/-- BaseTableManager.merge (lines 58-127). tableFound says whether the
engine's merge primitive finds committed table data; when it does not,
deltalake raises TableNotFoundError, caught at line 111: insert/upsert fall
back to a plain engine append (with the "description" option computed at
lines 71-72), every other condition raises the explicit ValueError of lines
120-124. The successful merge path passes only delta_merge_options to the
engine; the delta_write_options dict carrying "description" is not part of
that call. -/
def BaseTableManager.merge (m : BaseTableManager) (tableFound : Bool)
    (table_name : String) (df : DataFrame) (merge_condition : String)
    (delta_write_options : Option (List (String × String))) :
    OpResult BaseTableManager Unit :=
  match dictLookup m.tables table_name with
  | none => ⟨m, [], .error (.keyError table_name)⟩
  | some base_table =>
    if base_table.validate_schema df then
      let primary_keys := base_table.primary_keys
      let dwo := dictInsert (delta_write_options.getD []) "description" primary_keys
      let delta_merge_options : MergeOptions :=
        ⟨mergePredicate primary_keys, "s", "t"⟩
      if tableFound then
        match mergeClauses merge_condition with
        | some clauses =>
          ⟨m, [.mergeExecute (tablePath m table_name) df delta_merge_options
            clauses], .ok ()⟩
        | none => ⟨m, [], .ok ()⟩
      else
        if merge_condition = "insert" || merge_condition = "upsert" then
          ⟨m, [.writeAppend (tablePath m table_name) df dwo], .ok ()⟩
        else
          ⟨m, [], .error (.valueError
            ("No log files found or data found." ++
             "Please check if table data exists or if the merge condition (" ++
             merge_condition ++ ") is correct."))⟩
    else
      ⟨m, [], .error (.valueError "DataFrame does not match table schema")⟩

/-- BaseTableManager.overwrite (lines 129-148): like append with engine
mode overwrite. -/
def BaseTableManager.overwrite (m : BaseTableManager) (table_name : String)
    (df : DataFrame) (delta_write_options : Option (List (String × String))) :
    OpResult BaseTableManager Unit :=
  match dictLookup m.tables table_name with
  | none => ⟨m, [], .error (.keyError table_name)⟩
  | some base_table =>
    if base_table.validate_schema df then
      let dwo := dictInsert (delta_write_options.getD []) "description"
        base_table.primary_keys
      ⟨m, [.writeOverwrite (tablePath m table_name) df dwo], .ok ()⟩
    else
      ⟨m, [], .error (.valueError "DataFrame does not match table schema")⟩

/-- BaseTableManager.get_data_frame (lines 150-159). stored is the engine's
view of the table storage: some df when pl.read_delta succeeds, none when it
raises TableNotFoundError. In the latter case a declared table yields an
empty DataFrame with the declared schema; an undeclared one re-raises as a
ValueError (whose Python text also appends the engine exception's text). -/
def BaseTableManager.get_data_frame (m : BaseTableManager)
    (stored : Option DataFrame) (table_name : String) :
    OpResult BaseTableManager DataFrame :=
  match stored with
  | some df => ⟨m, [], .ok df⟩
  | none =>
    match dictLookup m.tables table_name with
    | some base_table => ⟨m, [], .ok ⟨base_table.table_schema, []⟩⟩
    | none => ⟨m, [], .error (.valueError
        ("Table '" ++ table_name ++ "' does not exist or has no data"))⟩

/-- BaseTableManager.get_lazy_frame (lines 161-170): the lazy analogue of
get_data_frame, built from pl.scan_delta or DataFrame(schema=...).lazy(). -/
def BaseTableManager.get_lazy_frame (m : BaseTableManager)
    (stored : Option DataFrame) (table_name : String) :
    OpResult BaseTableManager LazyFrame :=
  match stored with
  | some df => ⟨m, [], .ok df.lazy⟩
  | none =>
    match dictLookup m.tables table_name with
    | some base_table => ⟨m, [], .ok (DataFrame.lazy ⟨base_table.table_schema, []⟩)⟩
    | none => ⟨m, [], .error (.valueError
        ("Table '" ++ table_name ++ "' does not exist or has no data"))⟩

/-- BaseTableManager.optimize_table (lines 172-185): opens the DeltaTable
(tableFound false models the constructor raising TableNotFoundError) and
delegates to the engine's compaction routine. -/
def BaseTableManager.optimize_table (m : BaseTableManager) (tableFound : Bool)
    (table_name : String) (target_size : Option Nat)
    (max_concurrent_tasks : Option Nat) (writer_properties : Option String) :
    OpResult BaseTableManager Unit :=
  if tableFound then
    ⟨m, [.optimizeCompact (tablePath m table_name) target_size
      max_concurrent_tasks writer_properties], .ok ()⟩
  else
    ⟨m, [], .error (.tableNotFoundError table_name)⟩

/-- BaseTableManager.vacuum_table (lines 187-199): opens the DeltaTable and
delegates to the engine's vacuum with dry_run False. -/
def BaseTableManager.vacuum_table (m : BaseTableManager) (tableFound : Bool)
    (table_name : String) (retention_hours : Option Nat)
    (enforce_retention_duration : Bool) : OpResult BaseTableManager Unit :=
  if tableFound then
    ⟨m, [.vacuum (tablePath m table_name) retention_hours
      enforce_retention_duration], .ok ()⟩
  else
    ⟨m, [], .error (.tableNotFoundError table_name)⟩

/-- The dict returned by BaseTableManager.get_table_info (lines 204-215):
engine-reported version, metadata and parquet file count together with the
declared schema and primary keys from the catalog entry. -/
structure TableInfo where
  table_exists : Bool
  version : Int
  metadata : String
  size : Nat
  table_schema : List (String × String)
  primary_keys : String
deriving DecidableEq, Repr

/-- BaseTableManager.get_table_info (lines 204-215): opens the DeltaTable
first (TableNotFoundError propagates when the storage does not exist), then
reads the catalog entry (KeyError on an undeclared name). version, metadata
and file count are engine-reported pass-through values. -/
def BaseTableManager.get_table_info (m : BaseTableManager) (tableFound : Bool)
    (engine_version : Int) (engine_metadata : String) (file_count : Nat)
    (table_name : String) : OpResult BaseTableManager TableInfo :=
  if tableFound then
    match dictLookup m.tables table_name with
    | some base_table => ⟨m, [], .ok ⟨true, engine_version, engine_metadata,
        file_count, base_table.table_schema, base_table.primary_keys⟩⟩
    | none => ⟨m, [], .error (.keyError table_name)⟩
  else
    ⟨m, [], .error (.tableNotFoundError table_name)⟩

/-- BaseTableManager.get_table_schema (lines 217-218). -/
def BaseTableManager.get_table_schema (m : BaseTableManager)
    (table_name : String) : OpResult BaseTableManager (List (String × String)) :=
  match dictLookup m.tables table_name with
  | some base_table => ⟨m, [], .ok base_table.table_schema⟩
  | none => ⟨m, [], .error (.keyError table_name)⟩

/-- Modelled from the spec: delete_table is implemented by the
storage-backend subclass in src/pdldb/local_table_manager.py, which is not
under src/ here; base_table_manager.py only declares it abstract. Spec 4.1
and 4.4: it removes the catalog entry and deletes all underlying storage
for the table, irreversibly, returning True on success. -/
def BaseTableManager.delete_table (m : BaseTableManager) (table_name : String) :
    OpResult BaseTableManager Bool :=
  ⟨{ m with tables := dictRemove m.tables table_name },
    [.deleteStorage (tablePath m table_name)], .ok true⟩

/-! LakeManager facade (lake_manager.py). The facade owns a table_manager
and validates caller input with pydantic request models before delegating;
a failed field validator surfaces as a pydantic ValidationError. -/

/-- State of a LakeManager: its table_manager (the base_path and
storage_options it also stores are those of the table_manager). -/
structure LakeManager where
  table_manager : BaseTableManager
deriving DecidableEq, Repr

/-- The shared table_name field validator of the pydantic request models
(TableCreateModel, TableOperationModel, TableNameModel): rejects a name
that is falsy or whitespace-only; pydantic reports the raised ValueError as
a ValidationError. OptimizeTableModel and VacuumTableModel declare no such
validator. -/
def validateTableName (table_name : String) : Option PyError :=
  if pyStrip table_name = "" then
    some (.validationError "Table name cannot be empty")
  else none

/-- The Literal annotation on MergeOperationModel.merge_condition: pydantic
rejects any value outside the five allowed ones. -/
def validMergeCondition (merge_condition : String) : Bool :=
  merge_condition = "update" || merge_condition = "insert" ||
  merge_condition = "delete" || merge_condition = "upsert" ||
  merge_condition = "upsert_delete"

/-- LakeManager._check_table_exists (lines 127-130). -/
def checkTableExists (lm : LakeManager) (table_name : String) : Option PyError :=
  if dictContains lm.table_manager.tables table_name then none
  else some (.valueError ("Table " ++ table_name ++ " does not exist"))

/-- LakeManager._check_table_not_exists (lines 132-135). -/
def checkTableNotExists (lm : LakeManager) (table_name : String) : Option PyError :=
  if dictContains lm.table_manager.tables table_name then
    some (.valueError ("Table " ++ table_name ++ " already exists"))
  else none

/-- Lifts a base-manager OpResult into the facade's state. -/
def liftBase {α : Type} (r : OpResult BaseTableManager α) : OpResult LakeManager α :=
  ⟨⟨r.mgr⟩, r.calls, r.result⟩

/-- LakeManager.create_table (lines 137-187): pydantic name validation,
then the must-not-exist check, then delegation to the catalog. -/
def LakeManager.create_table (lm : LakeManager) (table_name : String)
    (table_schema : List (String × String))
    (primary_keys : Sum String (List String)) : OpResult LakeManager Unit :=
  match validateTableName table_name with
  | some e => ⟨lm, [], .error e⟩
  | none =>
    match checkTableNotExists lm table_name with
    | some e => ⟨lm, [], .error e⟩
    | none =>
      ⟨⟨lm.table_manager.create_table table_name table_schema primary_keys⟩,
        [], .ok ()⟩

/-- LakeManager.append_table (lines 189-219). -/
def LakeManager.append_table (lm : LakeManager) (table_name : String)
    (df : DataFrame) (delta_write_options : Option (List (String × String))) :
    OpResult LakeManager Unit :=
  match validateTableName table_name with
  | some e => ⟨lm, [], .error e⟩
  | none =>
    match checkTableExists lm table_name with
    | some e => ⟨lm, [], .error e⟩
    | none => liftBase (lm.table_manager.append table_name df delta_write_options)

/-- LakeManager.merge_table (lines 221-269): the MergeOperationModel
validates table_name (inherited field, declared first) and then the
merge_condition Literal, before the existence check and delegation. -/
def LakeManager.merge_table (lm : LakeManager) (tableFound : Bool)
    (table_name : String) (df : DataFrame) (merge_condition : String)
    (delta_write_options : Option (List (String × String))) :
    OpResult LakeManager Unit :=
  match validateTableName table_name with
  | some e => ⟨lm, [], .error e⟩
  | none =>
    if validMergeCondition merge_condition then
      match checkTableExists lm table_name with
      | some e => ⟨lm, [], .error e⟩
      | none => liftBase (lm.table_manager.merge tableFound table_name df
          merge_condition delta_write_options)
    else
      ⟨lm, [], .error (.validationError
        "merge_condition must be one of update, insert, delete, upsert, upsert_delete")⟩

/-- LakeManager.overwrite_table (lines 271-302). -/
def LakeManager.overwrite_table (lm : LakeManager) (table_name : String)
    (df : DataFrame) (delta_write_options : Option (List (String × String))) :
    OpResult LakeManager Unit :=
  match validateTableName table_name with
  | some e => ⟨lm, [], .error e⟩
  | none =>
    match checkTableExists lm table_name with
    | some e => ⟨lm, [], .error e⟩
    | none => liftBase (lm.table_manager.overwrite table_name df delta_write_options)

/-- LakeManager.get_data_frame (lines 304-324). -/
def LakeManager.get_data_frame (lm : LakeManager) (stored : Option DataFrame)
    (table_name : String) : OpResult LakeManager DataFrame :=
  match validateTableName table_name with
  | some e => ⟨lm, [], .error e⟩
  | none =>
    match checkTableExists lm table_name with
    | some e => ⟨lm, [], .error e⟩
    | none => liftBase (lm.table_manager.get_data_frame stored table_name)

/-- LakeManager.get_lazy_frame (lines 326-349). -/
def LakeManager.get_lazy_frame (lm : LakeManager) (stored : Option DataFrame)
    (table_name : String) : OpResult LakeManager LazyFrame :=
  match validateTableName table_name with
  | some e => ⟨lm, [], .error e⟩
  | none =>
    match checkTableExists lm table_name with
    | some e => ⟨lm, [], .error e⟩
    | none => liftBase (lm.table_manager.get_lazy_frame stored table_name)

/-- LakeManager.optimize_table (lines 351-392); OptimizeTableModel has no
table_name validator, so only the existence check guards the call. -/
def LakeManager.optimize_table (lm : LakeManager) (tableFound : Bool)
    (table_name : String) (target_size : Option Nat)
    (max_concurrent_tasks : Option Nat) (writer_properties : Option String) :
    OpResult LakeManager Unit :=
  match checkTableExists lm table_name with
  | some e => ⟨lm, [], .error e⟩
  | none => liftBase (lm.table_manager.optimize_table tableFound table_name
      target_size max_concurrent_tasks writer_properties)

/-- LakeManager.vacuum_table (lines 394-434); VacuumTableModel has no
table_name validator. -/
def LakeManager.vacuum_table (lm : LakeManager) (tableFound : Bool)
    (table_name : String) (retention_hours : Option Nat)
    (enforce_retention_duration : Bool) : OpResult LakeManager Unit :=
  match checkTableExists lm table_name with
  | some e => ⟨lm, [], .error e⟩
  | none => liftBase (lm.table_manager.vacuum_table tableFound table_name
      retention_hours enforce_retention_duration)

/-- LakeManager.get_table_info (lines 449-465). -/
def LakeManager.get_table_info (lm : LakeManager) (tableFound : Bool)
    (engine_version : Int) (engine_metadata : String) (file_count : Nat)
    (table_name : String) : OpResult LakeManager TableInfo :=
  match validateTableName table_name with
  | some e => ⟨lm, [], .error e⟩
  | none =>
    match checkTableExists lm table_name with
    | some e => ⟨lm, [], .error e⟩
    | none => liftBase (lm.table_manager.get_table_info tableFound
        engine_version engine_metadata file_count table_name)

/-- LakeManager.get_table_schema (lines 467-483). -/
def LakeManager.get_table_schema (lm : LakeManager) (table_name : String) :
    OpResult LakeManager (List (String × String)) :=
  match validateTableName table_name with
  | some e => ⟨lm, [], .error e⟩
  | none =>
    match checkTableExists lm table_name with
    | some e => ⟨lm, [], .error e⟩
    | none => liftBase (lm.table_manager.get_table_schema table_name)

/-- LakeManager.delete_table (lines 485-509). -/
def LakeManager.delete_table (lm : LakeManager) (table_name : String) :
    OpResult LakeManager Bool :=
  match validateTableName table_name with
  | some e => ⟨lm, [], .error e⟩
  | none =>
    match checkTableExists lm table_name with
    | some e => ⟨lm, [], .error e⟩
    | none => liftBase (lm.table_manager.delete_table table_name)

/-! General lemmas about the Python primitives. -/

theorem dictLookup_dictInsert_self {α : Type} (l : List (String × α))
    (k : String) (v : α) : dictLookup (dictInsert l k v) k = some v := by
  induction l with
  | nil => simp [dictInsert, dictLookup]
  | cons p rest ih =>
    obtain ⟨k', v'⟩ := p
    by_cases h : k' = k
    · simp [dictInsert, dictLookup, h]
    · simp [dictInsert, dictLookup, h, ih]

theorem splitCharAux_not_mem (sep : Char) (cs : List Char) (acc : List Char)
    (h : sep ∉ cs) : splitCharAux sep cs acc = [acc.reverse ++ cs] := by
  induction cs generalizing acc with
  | nil => simp [splitCharAux]
  | cons c rest ih =>
    have hc : ¬(c = sep) := fun hc => h (by simp [hc])
    have hr : sep ∉ rest := fun hr => h (List.mem_cons_of_mem _ hr)
    simp only [splitCharAux, if_neg hc, ih _ hr]
    simp

theorem splitCharAux_append_sep (sep : Char) (cs₁ cs₂ acc : List Char)
    (h : sep ∉ cs₁) :
    splitCharAux sep (cs₁ ++ sep :: cs₂) acc =
      (acc.reverse ++ cs₁) :: splitCharAux sep cs₂ [] := by
  induction cs₁ generalizing acc with
  | nil => simp [splitCharAux]
  | cons c rest ih =>
    have hc : ¬(c = sep) := fun hc => h (by simp [hc])
    have hr : sep ∉ rest := fun hr => h (List.mem_cons_of_mem _ hr)
    simp only [List.cons_append, splitCharAux, if_neg hc, List.append_eq]
    rw [ih (c :: acc) hr]
    simp

theorem pyContains_eq_false_iff (s : String) (c : Char) :
    pyContains s c = false ↔ c ∉ s.data := by
  simp [pyContains]
  constructor
  · intro h hmem
    exact absurd (h c hmem) (by simp)
  · intro h d hd hdc
    exact h (hdc ▸ hd)

theorem pySplit_pyJoin (ks : List String) (hne : ks ≠ [])
    (h : ∀ k ∈ ks, pyContains k ',' = false) :
    pySplit (pyJoin "," ks) ',' = ks := by
  induction ks with
  | nil => exact absurd rfl hne
  | cons k rest ih =>
    cases rest with
    | nil =>
      have hk : ',' ∉ k.data :=
        (pyContains_eq_false_iff k ',').mp (h k (by simp))
      simp [pyJoin, pySplit, splitCharAux_not_mem ',' k.data [] hk]
    | cons k2 rest2 =>
      have hk : ',' ∉ k.data :=
        (pyContains_eq_false_iff k ',').mp (h k (by simp))
      have hdata : (k ++ "," ++ pyJoin "," (k2 :: rest2)).data =
          k.data ++ ',' :: (pyJoin "," (k2 :: rest2)).data := by
        simp [String.data_append]
      have hrest : ∀ x ∈ k2 :: rest2, pyContains x ',' = false := by
        intro x hx
        exact h x (List.mem_cons_of_mem _ hx)
      calc pySplit (pyJoin "," (k :: k2 :: rest2)) ','
          = (splitCharAux ',' (k.data ++ ',' :: (pyJoin "," (k2 :: rest2)).data)
              []).map (fun cs => String.mk cs) := by
            simp only [pySplit, pyJoin, hdata]
        _ = k :: pySplit (pyJoin "," (k2 :: rest2)) ',' := by
            rw [splitCharAux_append_sep ',' k.data _ [] hk]
            simp [pySplit]
        _ = k :: k2 :: rest2 := by
            rw [ih (by simp) hrest]

theorem pyContains_pyJoin_comma (k1 k2 : String) (rest : List String) :
    pyContains (pyJoin "," (k1 :: k2 :: rest)) ',' = true := by
  simp [pyJoin, pyContains, String.data_append]

/-! Concrete fixtures used by witnesses and counterexamples. -/

/-- A declared schema, as in the repository's own examples. -/
def sampleSchema : List (String × String) := [("id", "Int32"), ("value", "Float64")]

/-- A catalog entry with a single primary key. -/
def sampleTable : BaseTable := ⟨"events", sampleSchema, "id"⟩

/-- A manager whose catalog declares the events table. -/
def sampleMgr : BaseTableManager := ⟨"data", [("events", sampleTable)]⟩

/-- The facade over sampleMgr. -/
def sampleLake : LakeManager := ⟨sampleMgr⟩

/-- A batch matching sampleSchema up to column order. -/
def sampleDF : DataFrame := ⟨[("value", "Float64"), ("id", "Int32")], [["1.5", "1"]]⟩

/-- A batch whose id column has the wrong type. -/
def badDF : DataFrame := ⟨[("id", "Int64"), ("value", "Float64")], []⟩

/-- C1: on a declared table with a schema-conforming batch, when the merge
primitive reports table-not-found, merge with condition insert or upsert
falls back to a plain engine append of the whole source batch, while
update, delete and upsert_delete raise the explicit no-data-to-merge
ValueError and issue no engine write. -/
theorem merge_not_found_fallback
    (m : BaseTableManager) (table_name : String) (bt : BaseTable)
    (df : DataFrame) (merge_condition : String)
    (dwo : Option (List (String × String)))
    (hlook : dictLookup m.tables table_name = some bt)
    (hval : bt.validate_schema df = true) :
    ((merge_condition = "insert" ∨ merge_condition = "upsert") →
        m.merge false table_name df merge_condition dwo =
          ⟨m, [.writeAppend (tablePath m table_name) df
                (dictInsert (dwo.getD []) "description" bt.primary_keys)],
            .ok ()⟩) ∧
    ((merge_condition = "update" ∨ merge_condition = "delete" ∨
        merge_condition = "upsert_delete") →
        m.merge false table_name df merge_condition dwo =
          ⟨m, [], .error (.valueError
            ("No log files found or data found." ++
             "Please check if table data exists or if the merge condition (" ++
             merge_condition ++ ") is correct."))⟩) := by
  constructor
  · rintro (rfl | rfl) <;> simp [BaseTableManager.merge, hlook, hval]
  · rintro (rfl | rfl | rfl) <;> simp [BaseTableManager.merge, hlook, hval]

/-- Witness for C1 at a concrete manager, batch and both condition kinds. -/
theorem merge_not_found_fallback_witness :
    (sampleMgr.merge false "events" sampleDF "insert" none =
      ⟨sampleMgr, [.writeAppend (tablePath sampleMgr "events") sampleDF
        (dictInsert ((none : Option (List (String × String))).getD [])
          "description" sampleTable.primary_keys)], .ok ()⟩) ∧
    (sampleMgr.merge false "events" sampleDF "update" none =
      ⟨sampleMgr, [], .error (.valueError
        ("No log files found or data found." ++
         "Please check if table data exists or if the merge condition (" ++
         "update" ++ ") is correct."))⟩) :=
  ⟨(merge_not_found_fallback sampleMgr "events" sampleTable sampleDF "insert"
      none (by decide) (by decide)).1 (Or.inl rfl),
   (merge_not_found_fallback sampleMgr "events" sampleTable sampleDF "update"
      none (by decide) (by decide)).2 (Or.inl rfl)⟩

/-- C2: on a declared table with a schema-conforming batch and committed
data, each valid mergeCondition translates into exactly the stated clause
chain on the engine's merge primitive: update-all on match for update;
insert-all on non-match for insert; delete on match for delete; update-all
plus insert-all for upsert; update-all, insert-all and
not-matched-by-source delete for upsert_delete. -/
theorem merge_condition_dispatch
    (m : BaseTableManager) (table_name : String) (bt : BaseTable)
    (df : DataFrame) (dwo : Option (List (String × String)))
    (hlook : dictLookup m.tables table_name = some bt)
    (hval : bt.validate_schema df = true) :
    (m.merge true table_name df "update" dwo =
      ⟨m, [.mergeExecute (tablePath m table_name) df
        ⟨mergePredicate bt.primary_keys, "s", "t"⟩
        [.whenMatchedUpdateAll]], .ok ()⟩) ∧
    (m.merge true table_name df "insert" dwo =
      ⟨m, [.mergeExecute (tablePath m table_name) df
        ⟨mergePredicate bt.primary_keys, "s", "t"⟩
        [.whenNotMatchedInsertAll]], .ok ()⟩) ∧
    (m.merge true table_name df "delete" dwo =
      ⟨m, [.mergeExecute (tablePath m table_name) df
        ⟨mergePredicate bt.primary_keys, "s", "t"⟩
        [.whenMatchedDelete]], .ok ()⟩) ∧
    (m.merge true table_name df "upsert" dwo =
      ⟨m, [.mergeExecute (tablePath m table_name) df
        ⟨mergePredicate bt.primary_keys, "s", "t"⟩
        [.whenMatchedUpdateAll, .whenNotMatchedInsertAll]], .ok ()⟩) ∧
    (m.merge true table_name df "upsert_delete" dwo =
      ⟨m, [.mergeExecute (tablePath m table_name) df
        ⟨mergePredicate bt.primary_keys, "s", "t"⟩
        [.whenMatchedUpdateAll, .whenNotMatchedInsertAll,
         .whenNotMatchedBySourceDelete]], .ok ()⟩) := by
  refine ⟨?_, ?_, ?_, ?_, ?_⟩ <;>
    simp [BaseTableManager.merge, hlook, hval, mergeClauses]

/-- Witness for C2 at a concrete manager and batch. -/
theorem merge_condition_dispatch_witness :
    sampleMgr.merge true "events" sampleDF "upsert_delete" none =
      ⟨sampleMgr, [.mergeExecute (tablePath sampleMgr "events") sampleDF
        ⟨mergePredicate sampleTable.primary_keys, "s", "t"⟩
        [.whenMatchedUpdateAll, .whenNotMatchedInsertAll,
         .whenNotMatchedBySourceDelete]], .ok ()⟩ :=
  (merge_condition_dispatch sampleMgr "events" sampleTable sampleDF none
    (by decide) (by decide)).2.2.2.2

/-- C3: the merge join predicate is built from the primary-key columns in
declared order with aliases s and t: a composite key stored as the
comma-join of clean column names (no commas, no surrounding whitespace)
yields the AND-join of the per-column equalities, a single key a yields
exactly s.a = t.a, and in particular keys a, b yield exactly
s.a = t.a AND s.b = t.b. -/
theorem merge_predicate_construction
    (keys : List String) (k1 k2 : String) (rest : List String)
    (hkeys : keys = k1 :: k2 :: rest)
    (hclean : ∀ k ∈ keys, pyContains k ',' = false ∧ pyStrip k = k) :
    mergePredicate (pyJoin "," keys) =
      pyJoin " AND " (keys.map (fun col => "s." ++ col ++ " = t." ++ col)) ∧
    (∀ pk : String, pyContains pk ',' = false →
      mergePredicate pk = "s." ++ pk ++ " = t." ++ pk) ∧
    mergePredicate (pyJoin "," ["a", "b"]) = "s.a = t.a AND s.b = t.b" ∧
    mergePredicate "a" = "s.a = t.a" := by
  refine ⟨?_, ?_, by decide, by decide⟩
  · subst hkeys
    have hsplit : pySplit (pyJoin "," (k1 :: k2 :: rest)) ',' = k1 :: k2 :: rest :=
      pySplit_pyJoin _ (by simp) (fun k hk => (hclean k hk).1)
    have hmap : (k1 :: k2 :: rest).map pyStrip = k1 :: k2 :: rest := by
      rw [List.map_congr_left (fun k hk => (hclean k hk).2)]
      simp
    simp only [mergePredicate, pyContains_pyJoin_comma, if_true, hsplit, hmap]
  · intro pk hpk
    simp [mergePredicate, hpk]

/-- Witness for C3 at the composite key a, b and the single key a. -/
theorem merge_predicate_construction_witness :
    mergePredicate (pyJoin "," ["a", "b"]) =
      pyJoin " AND " (["a", "b"].map (fun col => "s." ++ col ++ " = t." ++ col)) :=
  (merge_predicate_construction ["a", "b"] "a" "b" [] rfl (by decide)).1

/-- C4: on a declared table, a batch whose column set or types differ from
the declared schema makes append, merge and overwrite fail with the
schema-mismatch ValueError, with no engine call issued. -/
theorem write_schema_mismatch
    (m : BaseTableManager) (table_name : String) (bt : BaseTable)
    (df : DataFrame) (merge_condition : String) (tableFound : Bool)
    (dwo : Option (List (String × String)))
    (hlook : dictLookup m.tables table_name = some bt)
    (hval : bt.validate_schema df = false) :
    m.append table_name df dwo =
      ⟨m, [], .error (.valueError "DataFrame does not match table schema")⟩ ∧
    m.merge tableFound table_name df merge_condition dwo =
      ⟨m, [], .error (.valueError "DataFrame does not match table schema")⟩ ∧
    m.overwrite table_name df dwo =
      ⟨m, [], .error (.valueError "DataFrame does not match table schema")⟩ := by
  refine ⟨?_, ?_, ?_⟩ <;>
    simp [BaseTableManager.append, BaseTableManager.merge,
      BaseTableManager.overwrite, hlook, hval]

/-- Witness for C4 at a concrete mismatching batch (Int64 id against the
declared Int32). -/
theorem write_schema_mismatch_witness :
    sampleMgr.append "events" badDF none =
      ⟨sampleMgr, [], .error (.valueError "DataFrame does not match table schema")⟩ :=
  (write_schema_mismatch sampleMgr "events" sampleTable badDF "upsert" true
    none (by decide) (by decide)).1

/-- C5 counterexample: a successful merge on a table with committed data
delegates a merge execution that carries no "description" write option at
all — base_table_manager.py line 89 passes only delta_merge_options, never
the delta_write_options dict built at lines 71-72 — so the claim that every
write operation attaches the primary-key string as write metadata is false
for merge. -/
theorem merge_description_counterexample :
    sampleMgr.merge true "events" sampleDF "update" none =
      ⟨sampleMgr, [.mergeExecute "data/events" sampleDF
        ⟨"s.id = t.id", "s", "t"⟩ [.whenMatchedUpdateAll]], .ok ()⟩ ∧
    (sampleMgr.merge true "events" sampleDF "update" none).calls.map
      EngineCall.descriptionOption = [none] ∧
    sampleTable.primary_keys = "id" := by
  refine ⟨by decide, by decide, rfl⟩

/-- C5 amended: append and overwrite attach the table's composite
primary-key string as the "description" write option on the delegated
engine call, as does the table-not-found fallback append of merge with
condition insert or upsert; the successful merge execution itself carries
no description option. -/
theorem write_description_metadata
    (m : BaseTableManager) (table_name : String) (bt : BaseTable)
    (df : DataFrame) (merge_condition : String)
    (dwo : Option (List (String × String)))
    (hlook : dictLookup m.tables table_name = some bt)
    (hval : bt.validate_schema df = true) :
    (m.append table_name df dwo).calls.map EngineCall.descriptionOption =
      [some bt.primary_keys] ∧
    (m.overwrite table_name df dwo).calls.map EngineCall.descriptionOption =
      [some bt.primary_keys] ∧
    ((merge_condition = "insert" ∨ merge_condition = "upsert") →
      (m.merge false table_name df merge_condition dwo).calls.map
        EngineCall.descriptionOption = [some bt.primary_keys]) ∧
    (∀ clauses, mergeClauses merge_condition = some clauses →
      (m.merge true table_name df merge_condition dwo).calls.map
        EngineCall.descriptionOption = [none]) := by
  refine ⟨?_, ?_, ?_, ?_⟩
  · simp [BaseTableManager.append, hlook, hval, EngineCall.descriptionOption,
      dictLookup_dictInsert_self]
  · simp [BaseTableManager.overwrite, hlook, hval, EngineCall.descriptionOption,
      dictLookup_dictInsert_self]
  · rintro (rfl | rfl) <;>
      simp [BaseTableManager.merge, hlook, hval, EngineCall.descriptionOption,
        dictLookup_dictInsert_self]
  · intro clauses hclauses
    simp [BaseTableManager.merge, hlook, hval, hclauses,
      EngineCall.descriptionOption]

/-- Witness for the amended C5 at a concrete manager and batch. -/
theorem write_description_metadata_witness :
    (sampleMgr.append "events" sampleDF none).calls.map
      EngineCall.descriptionOption = [some sampleTable.primary_keys] :=
  (write_description_metadata sampleMgr "events" sampleTable sampleDF
    "insert" none (by decide) (by decide)).1

/-- The declared key-column list of a Union[str, list[str]] primary-key
specification: a bare string names one column. -/
def pkColumns : Sum String (List String) → List String
  | .inl s => [s]
  | .inr l => l

/-- C6: create followed by lookup returns a definition whose schema is the
declared schema and whose primary-key representation is the declared key
columns joined with commas in declared order; get_table_schema and
get_table_info report that same schema and key string. -/
theorem create_then_lookup
    (m : BaseTableManager) (table_name : String)
    (table_schema : List (String × String))
    (primary_keys : Sum String (List String)) :
    dictLookup (m.create_table table_name table_schema primary_keys).tables
        table_name =
      some ⟨table_name, table_schema, pyJoin "," (pkColumns primary_keys)⟩ ∧
    ((m.create_table table_name table_schema primary_keys).get_table_schema
        table_name).result = .ok table_schema ∧
    (∀ (v : Int) (meta : String) (cnt : Nat),
      ((m.create_table table_name table_schema primary_keys).get_table_info
          true v meta cnt table_name).result =
        .ok ⟨true, v, meta, cnt, table_schema,
          pyJoin "," (pkColumns primary_keys)⟩) := by
  have hjoin : (match primary_keys with
      | .inl s => s
      | .inr l => pyJoin "," l) = pyJoin "," (pkColumns primary_keys) := by
    cases primary_keys with
    | inl s => rfl
    | inr l => rfl
  have hlook : dictLookup
      (m.create_table table_name table_schema primary_keys).tables table_name =
      some ⟨table_name, table_schema, pyJoin "," (pkColumns primary_keys)⟩ := by
    simp only [BaseTableManager.create_table, hjoin]
    exact dictLookup_dictInsert_self _ _ _
  refine ⟨hlook, ?_, ?_⟩
  · simp [BaseTableManager.get_table_schema, hlook]
  · intro v meta cnt
    simp [BaseTableManager.get_table_info, hlook]

/-- C7 counterexample: the claim quantifies over every catalog state and
every name present in it, but for a whitespace-only name the pydantic
table_name validator fires before the duplicate check, so create fails with
the empty-name ValidationError, not the duplicate-table error. -/
theorem create_duplicate_whitespace_counterexample :
    LakeManager.create_table ⟨⟨"data", [(" ", ⟨" ", [("id", "Int32")], "id"⟩)]⟩⟩
        " " [("id", "Int32")] (.inl "id") =
      ⟨⟨⟨"data", [(" ", ⟨" ", [("id", "Int32")], "id"⟩)]⟩⟩, [],
        .error (.validationError "Table name cannot be empty")⟩ ∧
    PyError.validationError "Table name cannot be empty" ≠
      .valueError ("Table " ++ " " ++ " already exists") := by
  refine ⟨by decide, by decide⟩

/-- C7 amended: create on a name already present in the catalog fails
without altering any entry: with the duplicate-table ValueError when the
name is not whitespace-only, and with the empty-name ValidationError (from
the pydantic validator, which runs first) when it is; in both cases the
catalog afterwards is identical to the catalog before. -/
theorem create_duplicate_rejected
    (lm : LakeManager) (table_name : String)
    (table_schema : List (String × String))
    (primary_keys : Sum String (List String))
    (hpresent : dictContains lm.table_manager.tables table_name = true) :
    (pyStrip table_name ≠ "" →
      lm.create_table table_name table_schema primary_keys =
        ⟨lm, [], .error (.valueError
          ("Table " ++ table_name ++ " already exists"))⟩) ∧
    (pyStrip table_name = "" →
      lm.create_table table_name table_schema primary_keys =
        ⟨lm, [], .error (.validationError "Table name cannot be empty")⟩) := by
  constructor
  · intro hname
    simp [LakeManager.create_table, validateTableName, checkTableNotExists,
      hpresent, hname]
  · intro hname
    simp [LakeManager.create_table, validateTableName, hname]

/-- Witness for the amended C7 at a concrete catalog holding the events
table. -/
theorem create_duplicate_rejected_witness :
    sampleLake.create_table "events" sampleSchema (.inl "id") =
      ⟨sampleLake, [], .error (.valueError
        ("Table " ++ "events" ++ " already exists"))⟩ :=
  (create_duplicate_rejected sampleLake "events" sampleSchema (.inl "id")
    (by decide)).1 (by decide)

/-- C8 counterexample: the claim quantifies over every table name not in
the catalog, but for the empty name the pydantic table_name validator fires
first, so append_table fails with the empty-name ValidationError rather
than the unknown-table error (no catalog mutation or engine call happens
either way). -/
theorem unknown_table_empty_name_counterexample :
    LakeManager.append_table ⟨⟨"data", []⟩⟩ "" ⟨[("id", "Int32")], []⟩ none =
      ⟨⟨⟨"data", []⟩⟩, [], .error (.validationError "Table name cannot be empty")⟩ ∧
    PyError.validationError "Table name cannot be empty" ≠
      .valueError ("Table " ++ "" ++ " does not exist") := by
  refine ⟨by decide, by decide⟩

/-- C8 amended: every facade operation other than create — append, merge
(with a valid mergeCondition), overwrite, eager and lazy read, optimize,
vacuum, info, schema lookup, delete — invoked with a non-whitespace table
name absent from the catalog fails with the unknown-table ValueError,
leaving the catalog untouched and issuing no engine call; whitespace-only
names instead fail the pydantic name validation first on the operations
that declare it. -/
theorem unknown_table_rejected
    (lm : LakeManager) (table_name : String) (df : DataFrame)
    (merge_condition : String) (dwo : Option (List (String × String)))
    (stored : Option DataFrame) (tableFound : Bool)
    (target_size max_concurrent_tasks : Option Nat)
    (writer_properties : Option String) (retention_hours : Option Nat)
    (enforce_retention_duration : Bool)
    (v : Int) (meta : String) (cnt : Nat)
    (hname : pyStrip table_name ≠ "")
    (hcond : validMergeCondition merge_condition = true)
    (habs : dictContains lm.table_manager.tables table_name = false) :
    lm.append_table table_name df dwo =
      ⟨lm, [], .error (.valueError ("Table " ++ table_name ++ " does not exist"))⟩ ∧
    lm.merge_table tableFound table_name df merge_condition dwo =
      ⟨lm, [], .error (.valueError ("Table " ++ table_name ++ " does not exist"))⟩ ∧
    lm.overwrite_table table_name df dwo =
      ⟨lm, [], .error (.valueError ("Table " ++ table_name ++ " does not exist"))⟩ ∧
    lm.get_data_frame stored table_name =
      ⟨lm, [], .error (.valueError ("Table " ++ table_name ++ " does not exist"))⟩ ∧
    lm.get_lazy_frame stored table_name =
      ⟨lm, [], .error (.valueError ("Table " ++ table_name ++ " does not exist"))⟩ ∧
    lm.optimize_table tableFound table_name target_size max_concurrent_tasks
        writer_properties =
      ⟨lm, [], .error (.valueError ("Table " ++ table_name ++ " does not exist"))⟩ ∧
    lm.vacuum_table tableFound table_name retention_hours
        enforce_retention_duration =
      ⟨lm, [], .error (.valueError ("Table " ++ table_name ++ " does not exist"))⟩ ∧
    lm.get_table_info tableFound v meta cnt table_name =
      ⟨lm, [], .error (.valueError ("Table " ++ table_name ++ " does not exist"))⟩ ∧
    lm.get_table_schema table_name =
      ⟨lm, [], .error (.valueError ("Table " ++ table_name ++ " does not exist"))⟩ ∧
    lm.delete_table table_name =
      ⟨lm, [], .error (.valueError ("Table " ++ table_name ++ " does not exist"))⟩ := by
  refine ⟨?_, ?_, ?_, ?_, ?_, ?_, ?_, ?_, ?_, ?_⟩ <;>
    simp [LakeManager.append_table, LakeManager.merge_table,
      LakeManager.overwrite_table, LakeManager.get_data_frame,
      LakeManager.get_lazy_frame, LakeManager.optimize_table,
      LakeManager.vacuum_table, LakeManager.get_table_info,
      LakeManager.get_table_schema, LakeManager.delete_table,
      validateTableName, checkTableExists, hname, hcond, habs]

/-- Witness for the amended C8 at a concrete empty catalog and the name
ghost. -/
theorem unknown_table_rejected_witness :
    LakeManager.append_table ⟨⟨"data", []⟩⟩ "ghost" sampleDF none =
      ⟨⟨⟨"data", []⟩⟩, [],
        .error (.valueError ("Table " ++ "ghost" ++ " does not exist"))⟩ :=
  (unknown_table_rejected ⟨⟨"data", []⟩⟩ "ghost" sampleDF "insert" none none
    true none none none none true 0 "" 0 (by decide) (by decide) (by decide)).1

/-- C9: for a name present in the catalog whose storage the engine reports
as not found, the eager read returns an empty DataFrame with the declared
schema and the lazy read an empty LazyFrame with that schema, instead of
raising; when storage exists the reads return it; the reads raise only for
names absent from the catalog. -/
theorem read_missing_storage
    (m : BaseTableManager) (table_name : String) (bt : BaseTable)
    (hlook : dictLookup m.tables table_name = some bt) :
    m.get_data_frame none table_name = ⟨m, [], .ok ⟨bt.table_schema, []⟩⟩ ∧
    m.get_lazy_frame none table_name = ⟨m, [], .ok ⟨⟨bt.table_schema, []⟩⟩⟩ ∧
    (∀ df : DataFrame, m.get_data_frame (some df) table_name = ⟨m, [], .ok df⟩ ∧
      m.get_lazy_frame (some df) table_name = ⟨m, [], .ok df.lazy⟩) ∧
    (∀ name' : String, dictLookup m.tables name' = none →
      m.get_data_frame none name' = ⟨m, [], .error (.valueError
        ("Table '" ++ name' ++ "' does not exist or has no data"))⟩ ∧
      m.get_lazy_frame none name' = ⟨m, [], .error (.valueError
        ("Table '" ++ name' ++ "' does not exist or has no data"))⟩) := by
  refine ⟨?_, ?_, fun df => ⟨rfl, rfl⟩, fun name' habs => ⟨?_, ?_⟩⟩ <;>
    simp [BaseTableManager.get_data_frame, BaseTableManager.get_lazy_frame,
      hlook, DataFrame.lazy]
  · simp [habs]
  · simp [habs]

/-- Witness for C9 at the concrete sample catalog. -/
theorem read_missing_storage_witness :
    sampleMgr.get_data_frame none "events" =
      ⟨sampleMgr, [], .ok ⟨sampleTable.table_schema, []⟩⟩ :=
  (read_missing_storage sampleMgr "events" sampleTable (by decide)).1

/-- C10: append, merge, overwrite, optimize, vacuum and the read and info
operations leave the catalog mapping unchanged whether they succeed or
raise; only create_table and delete_table modify it. -/
theorem catalog_frame_effects
    (m : BaseTableManager) (table_name : String) (df : DataFrame)
    (merge_condition : String) (dwo : Option (List (String × String)))
    (stored : Option DataFrame) (tableFound : Bool)
    (target_size max_concurrent_tasks : Option Nat)
    (writer_properties : Option String) (retention_hours : Option Nat)
    (enforce_retention_duration : Bool)
    (v : Int) (meta : String) (cnt : Nat) :
    (m.append table_name df dwo).mgr = m ∧
    (m.merge tableFound table_name df merge_condition dwo).mgr = m ∧
    (m.overwrite table_name df dwo).mgr = m ∧
    (m.optimize_table tableFound table_name target_size max_concurrent_tasks
      writer_properties).mgr = m ∧
    (m.vacuum_table tableFound table_name retention_hours
      enforce_retention_duration).mgr = m ∧
    (m.get_data_frame stored table_name).mgr = m ∧
    (m.get_lazy_frame stored table_name).mgr = m ∧
    (m.get_table_info tableFound v meta cnt table_name).mgr = m ∧
    (m.get_table_schema table_name).mgr = m := by
  refine ⟨?_, ?_, ?_, ?_, ?_, ?_, ?_, ?_, ?_⟩ <;>
    simp only [BaseTableManager.append, BaseTableManager.merge,
      BaseTableManager.overwrite, BaseTableManager.optimize_table,
      BaseTableManager.vacuum_table, BaseTableManager.get_data_frame,
      BaseTableManager.get_lazy_frame, BaseTableManager.get_table_info,
      BaseTableManager.get_table_schema] <;>
    (repeat' split) <;> rfl
